import Mathlib

/-!
Verification of the mq-conv OOXML office-document converters (word and
powerpoint) against their natural-language specification.  The definitions
below are a shallow embedding of src/formats/word.rs and
src/formats/powerpoint.rs: the XML event stream is modelled as a list of
tagged events, the two single-pass builders as explicit step functions over
state records, and the Markdown renderers as pure string functions.
-/

namespace MqConv

/-! ## String helpers shared by both converters -/

/-- Model of Rust char::to_ascii_lowercase applied to a whole string
(Char.toLower lowers exactly the ASCII range, as Rust does). -/
def lowerAscii (s : String) : String := (s.toList.map Char.toLower).asString

/-- Model of Rust str::trim on the character list (whitespace stripped from
both ends). -/
def rustTrimList (cs : List Char) : List Char :=
  ((cs.dropWhile Char.isWhitespace).reverse.dropWhile Char.isWhitespace).reverse

/-- Model of Rust str::trim. -/
def rustTrim (s : String) : String := (rustTrimList s.toList).asString

/-- Model of Rust str::parse for an unsigned integer type with the given
maximum value: an optional leading plus sign, then at least one ASCII digit,
rejecting values above the bound. -/
def parseRustNat (bound : Nat) (cs : List Char) : Option Nat :=
  let ds := match cs with
    | '+' :: rest => rest
    | other => other
  if ds = [] then none
  else if ds.all Char.isDigit then
    let v := ds.foldl (fun acc c => acc * 10 + (c.toNat - 48)) 0
    if v ≤ bound then some v else none
  else none

/-- Embedding of local_name (word.rs:305, powerpoint.rs:450): the part of the
tag name after the last colon, or the whole name if there is none. -/
def local_name (s : String) : String :=
  ((s.toList.reverse.takeWhile (fun c => c ≠ ':')).reverse).asString

/-- Embedding of format_run_text (word.rs:261, powerpoint.rs:171). -/
def format_run_text (text : String) (bold italic : Bool) : String :=
  if text = "" then ""
  else
    match bold, italic with
    | true, true => "***" ++ text ++ "***"
    | true, false => "**" ++ text ++ "**"
    | false, true => "*" ++ text ++ "*"
    | false, false => text

/-! ## XML event stream

The quick_xml events consumed by both builders: Start, Empty (self-closing),
Text, End, and a parser error.  End of input is the end of the list. -/

inductive XmlEvent where
  | start (name : String) (attrs : List (String × String))
  | selfClose (name : String) (attrs : List (String × String))
  | text (content : String)
  | close (name : String)
  | err (message : String)
deriving DecidableEq

/-! ## Word-processing content model (word.rs) -/

/-- Embedding of enum Paragraph (word.rs:67). -/
inductive WPara where
  | Heading (level : Nat) (text : String)
  | Text (text : String)
  | ListItem (text : String)
  | BlockQuote (text : String)
  | Table (rows : List (List String))
deriving DecidableEq

/-- Embedding of is_blockquote (word.rs:273). -/
def is_blockquote (style : String) : Bool :=
  let lower := lowerAscii style
  (lower == "quote") || (lower == "intensequote") || (lower == "blockquote")

/-- Embedding of heading_level (word.rs:278): strip a heading/titre prefix
from the ASCII-lowercased style name, trim, parse as u8, and keep only
values in 1..=6. -/
def heading_level (style : String) : Option Nat :=
  let lower := (lowerAscii style).toList
  if ("heading".toList).isPrefixOf lower then
    (parseRustNat 255 (rustTrimList (lower.drop 7))).filter
      (fun n => decide (1 ≤ n ∧ n ≤ 6))
  else if ("titre".toList).isPrefixOf lower then
    (parseRustNat 255 (rustTrimList (lower.drop 5))).filter
      (fun n => decide (1 ≤ n ∧ n ≤ 6))
  else none

/-- Paragraph classification performed at paragraph-close (word.rs:160-174). -/
def classifyParagraph (style : Option String) (isListItem : Bool)
    (text : String) : WPara :=
  match style with
  | some s =>
    match heading_level s with
    | some level => WPara.Heading level text
    | none =>
      if is_blockquote s then WPara.BlockQuote text
      else if isListItem then WPara.ListItem text
      else WPara.Text text
  | none => if isListItem then WPara.ListItem text else WPara.Text text

/-- Mutable locals of parse_document (word.rs:76-91). -/
structure WordState where
  paragraphs : List WPara
  in_paragraph : Bool
  in_run : Bool
  in_table : Bool
  in_table_row : Bool
  in_table_cell : Bool
  current_text : String
  current_style : Option String
  is_bold : Bool
  is_italic : Bool
  is_list_item : Bool
  table_rows : List (List String)
  table_row : List String
  cell_text : String
deriving DecidableEq

def initWordState : WordState where
  paragraphs := []
  in_paragraph := false
  in_run := false
  in_table := false
  in_table_row := false
  in_table_cell := false
  current_text := ""
  current_style := none
  is_bold := false
  is_italic := false
  is_list_item := false
  table_rows := []
  table_row := []
  cell_text := ""

/-- Attribute scan of the pStyle arm (word.rs:126-131): the last attribute
whose key is w:val or val wins; with no match the style is unchanged. -/
def styleFromAttrs (cur : Option String) (attrs : List (String × String)) :
    Option String :=
  attrs.foldl
    (fun acc kv => if kv.fst = "w:val" ∨ kv.fst = "val" then some kv.snd else acc)
    cur

/-- Event::Start arm of parse_document (word.rs:95-120). -/
def wordStartTag (st : WordState) (tag : String) : WordState :=
  if tag = "p" then
    { st with in_paragraph := true, current_text := "", current_style := none,
              is_bold := false, is_italic := false, is_list_item := false }
  else if tag = "r" then { st with in_run := true }
  else if tag = "tbl" then { st with in_table := true, table_rows := [] }
  else if tag = "tr" then { st with in_table_row := true, table_row := [] }
  else if tag = "tc" then { st with in_table_cell := true, cell_text := "" }
  else st

/-- Event::Empty arm of parse_document (word.rs:122-138). -/
def wordEmptyTag (st : WordState) (tag : String)
    (attrs : List (String × String)) : WordState :=
  if tag = "pStyle" then
    { st with current_style := styleFromAttrs st.current_style attrs }
  else if tag = "b" then { st with is_bold := true }
  else if tag = "i" then { st with is_italic := true }
  else if tag = "numPr" ∨ tag = "ilvl" then { st with is_list_item := true }
  else st

/-- Event::Text arm of parse_document (word.rs:140-149). -/
def wordTextEvent (st : WordState) (t : String) : WordState :=
  if st.in_run ∨ st.in_table_cell then
    if st.in_table_cell then { st with cell_text := st.cell_text ++ t }
    else if st.in_paragraph then
      { st with current_text :=
          st.current_text ++ format_run_text t st.is_bold st.is_italic }
    else st
  else st

/-- Event::End arm of parse_document (word.rs:151-202). -/
def wordEndTag (st : WordState) (tag : String) : WordState :=
  if tag = "p" then
    if st.in_table_cell then { st with in_paragraph := false }
    else if st.in_paragraph then
      { st with
        paragraphs := st.paragraphs ++
          [classifyParagraph st.current_style st.is_list_item st.current_text],
        in_paragraph := false }
    else { st with in_paragraph := false }
  else if tag = "r" then
    { st with in_run := false, is_bold := false, is_italic := false }
  else if tag = "tc" then
    { st with table_row := st.table_row ++ [rustTrim st.cell_text],
              cell_text := "", in_table_cell := false }
  else if tag = "tr" then
    { st with table_rows := st.table_rows ++ [st.table_row],
              table_row := [], in_table_row := false }
  else if tag = "tbl" then
    { st with
      paragraphs :=
        if st.table_rows ≠ [] then st.paragraphs ++ [WPara.Table st.table_rows]
        else st.paragraphs,
      table_rows := [], in_table := false }
  else st

/-- One step of the word builder, dispatching on the event as the match in
parse_document does; tag names go through local_name first. -/
def wordStep (st : WordState) : XmlEvent → WordState
  | XmlEvent.start name _ => wordStartTag st (local_name name)
  | XmlEvent.selfClose name attrs => wordEmptyTag st (local_name name) attrs
  | XmlEvent.text t => wordTextEvent st t
  | XmlEvent.close name => wordEndTag st (local_name name)
  | XmlEvent.err _ => st

/-- Driver loop of parse_document (word.rs:93-219): a parser error aborts
with a Conversion error, end of input returns the accumulated paragraphs. -/
def runWordEvents : WordState → List XmlEvent → Except String (List WPara)
  | st, [] => Except.ok st.paragraphs
  | _, XmlEvent.err m :: _ =>
      Except.error ("Failed to parse document.xml: " ++ m)
  | st, e :: rest => runWordEvents (wordStep st e) rest

/-- Embedding of parse_document (word.rs:75). -/
def parse_document (events : List XmlEvent) : Except String (List WPara) :=
  runWordEvents initWordState events

/-! ## Markdown table writer (write_table, word.rs:222 and powerpoint.rs:401;
the two functions are textually identical) -/

/-- Embedding of cell.replace of the pipe character with a backslash-pipe
pair (word.rs:237). -/
def escapePipes (s : String) : String :=
  (s.toList.flatMap (fun c => if c = '|' then ['\\', '|'] else [c])).asString

/-- Cell lookup row.get(i).unwrap_or of the empty string (word.rs:236). -/
def cellAt (row : List String) (i : Nat) : String := (row.get? i).getD ""

/-- One rendered table cell including its leading space and trailing
space-pipe (word.rs:237). -/
def cellBox (cell : String) : String := " " ++ escapePipes cell ++ " |"

/-- One rendered table row: a leading pipe, then col_count cells looked up by
index (word.rs:234-239). -/
def tableRowLine (colCount : Nat) (row : List String) : String :=
  "|" ++ String.join ((List.range colCount).map (fun i => cellBox (cellAt row i)))
    ++ "\n"

/-- The separator row (word.rs:242-246). -/
def tableSeparatorLine (colCount : Nat) : String :=
  "|" ++ String.join ((List.range colCount).map (fun _ => "---|")) ++ "\n"

/-- Column count rows.iter().map(len).max().unwrap_or(0) (word.rs:227). -/
def maxRowLen (rows : List (List String)) : Nat :=
  (rows.map List.length).foldl max 0

/-- Embedding of write_table (word.rs:222-259): nothing is written for an
empty table or one whose rows are all empty; otherwise the header row,
the separator, then the remaining rows. -/
def write_table : List (List String) → String
  | [] => ""
  | header :: rest =>
    let colCount := maxRowLen (header :: rest)
    if colCount = 0 then ""
    else
      tableRowLine colCount header ++ tableSeparatorLine colCount ++
        String.join (rest.map (tableRowLine colCount))

/-- Padding a row with empty cells up to the table width, as the spec
describes it. -/
def padRow (width : Nat) (row : List String) : List String :=
  row ++ List.replicate (width - row.length) ""

/-- One table line rendered from an explicit, already padded cell list. -/
def specTableLine (cells : List String) : String :=
  "|" ++ String.join (cells.map cellBox) ++ "\n"

/-- Table rendering as the spec words it: column count is the maximum row
length, the header row is rows[0], a separator of dash-groups repeated
column-count times follows, and every row is padded with empty cells up to
the column count before its cells (pipes escaped) are emitted. -/
def spec_table : List (List String) → String
  | [] => ""
  | header :: rest =>
    let width := maxRowLen (header :: rest)
    if width = 0 then ""
    else
      specTableLine (padRow width header) ++ tableSeparatorLine width ++
        String.join (rest.map (fun r => specTableLine (padRow width r)))

/-! ## Word-processing Markdown renderer (WordConverter::convert,
word.rs:26-61) -/

/-- Hash prefix of a heading (word.rs:33). -/
def repeatChar (c : Char) (n : Nat) : String := (List.replicate n c).asString

/-- Rendering of one paragraph inside the convert loop; the flag says
whether this is the first paragraph, which suppresses the leading blank
line (word.rs:28-59). -/
def renderWordPara (first : Bool) : WPara → String
  | WPara.Heading level text =>
    (if first then "" else "\n") ++ repeatChar '#' level ++ " " ++ text ++ "\n"
  | WPara.Text text =>
    if text = "" then "" else (if first then "" else "\n") ++ text ++ "\n"
  | WPara.ListItem text => "- " ++ text ++ "\n"
  | WPara.BlockQuote text => (if first then "" else "\n") ++ "> " ++ text ++ "\n"
  | WPara.Table rows => (if first then "" else "\n") ++ write_table rows

/-- The convert loop: first is true only for the first paragraph and is set
to false after every paragraph, including ones that emit nothing
(word.rs:60). -/
def renderWordParas : Bool → List WPara → String
  | _, [] => ""
  | first, p :: rest => renderWordPara first p ++ renderWordParas false rest

/-- Markdown body written by WordConverter::convert for a parsed paragraph
list. -/
def wordConvertBody (paragraphs : List WPara) : String :=
  renderWordParas true paragraphs

/-! ## Presentation content model (powerpoint.rs:134-154) -/

structure TextRun where
  text : String
  bold : Bool
  italic : Bool
deriving DecidableEq

structure PPParagraph where
  runs : List TextRun
deriving DecidableEq

structure SlideShape where
  paragraphs : List PPParagraph
  is_title : Bool
  is_subtitle : Bool
  has_bullets : Bool
deriving DecidableEq

structure SlideContent where
  shapes : List SlideShape
  tables : List (List (List String))
deriving DecidableEq

/-- Embedding of render_paragraph (powerpoint.rs:156). -/
def render_paragraph (para : PPParagraph) : String :=
  String.join (para.runs.map (fun run => format_run_text run.text run.bold run.italic))

/-- Embedding of join_paragraphs_inline (powerpoint.rs:163): the rendered
paragraphs joined with single spaces. -/
def join_paragraphs_inline : List PPParagraph → String
  | [] => ""
  | [p] => render_paragraph p
  | p :: rest => render_paragraph p ++ " " ++ join_paragraphs_inline rest

/-- Mutable locals of extract_slide_content (powerpoint.rs:184-211). -/
structure PPState where
  shapes : List SlideShape
  tables : List (List (List String))
  in_shape : Bool
  in_text_body : Bool
  in_paragraph : Bool
  in_run : Bool
  in_text : Bool
  in_ppr : Bool
  in_rpr : Bool
  in_table : Bool
  in_table_row : Bool
  in_table_cell : Bool
  current_run : TextRun
  current_paragraph : PPParagraph
  paragraphs : List PPParagraph
  shape_type : String
  has_bullets : Bool
  table_rows : List (List String)
  table_row : List String
  cell_text : String
deriving DecidableEq

def initPPState : PPState where
  shapes := []
  tables := []
  in_shape := false
  in_text_body := false
  in_paragraph := false
  in_run := false
  in_text := false
  in_ppr := false
  in_rpr := false
  in_table := false
  in_table_row := false
  in_table_cell := false
  current_run := ⟨"", false, false⟩
  current_paragraph := ⟨[]⟩
  paragraphs := []
  shape_type := ""
  has_bullets := false
  table_rows := []
  table_row := []
  cell_text := ""

/-- Attribute scan shared by the two rPr arms (powerpoint.rs:241-253 and
290-302): a b or i attribute overwrites the flag with whether its value is
the string 1 or true. -/
def applyRunAttrs (run : TextRun) (attrs : List (String × String)) : TextRun :=
  attrs.foldl
    (fun r kv =>
      if kv.fst = "b" then
        { r with bold := (kv.snd == "1") || (kv.snd == "true") }
      else if kv.fst = "i" then
        { r with italic := (kv.snd == "1") || (kv.snd == "true") }
      else r)
    run

/-- Attribute scan of the ph arm (powerpoint.rs:274-284): the last type
attribute wins, and an empty resulting type label defaults to body. -/
def phTypeFromAttrs (cur : String) (attrs : List (String × String)) : String :=
  let t := attrs.foldl (fun acc kv => if kv.fst = "type" then kv.snd else acc) cur
  if t = "" then "body" else t

/-- Event::Start arm of extract_slide_content (powerpoint.rs:215-269). -/
def ppStartTag (st : PPState) (tag : String)
    (attrs : List (String × String)) : PPState :=
  if (tag = "sp" ∨ tag = "pic") ∧ st.in_table = false then
    { st with in_shape := true, paragraphs := [], shape_type := "",
              has_bullets := false }
  else if tag = "txBody" then { st with in_text_body := true }
  else if tag = "p" ∧ st.in_text_body then
    { st with in_paragraph := true, current_paragraph := ⟨[]⟩ }
  else if tag = "pPr" ∧ st.in_paragraph then { st with in_ppr := true }
  else if tag = "r" ∧ st.in_paragraph then
    { st with in_run := true, current_run := ⟨"", false, false⟩ }
  else if tag = "rPr" ∧ st.in_run then
    { st with in_rpr := true, current_run := applyRunAttrs st.current_run attrs }
  else if tag = "t" ∧ st.in_run then { st with in_text := true }
  else if tag = "tbl" then { st with in_table := true, table_rows := [] }
  else if tag = "tr" ∧ st.in_table then
    { st with in_table_row := true, table_row := [] }
  else if tag = "tc" ∧ st.in_table_row then
    { st with in_table_cell := true, cell_text := "" }
  else st

/-- Event::Empty arm of extract_slide_content (powerpoint.rs:271-305). -/
def ppEmptyTag (st : PPState) (tag : String)
    (attrs : List (String × String)) : PPState :=
  if tag = "ph" then { st with shape_type := phTypeFromAttrs st.shape_type attrs }
  else if (tag = "buChar" ∨ tag = "buAutoNum" ∨ tag = "buFont") ∧ st.in_ppr then
    { st with has_bullets := true }
  else if tag = "rPr" ∧ st.in_run then
    { st with current_run := applyRunAttrs st.current_run attrs }
  else st

/-- Event::Text arm of extract_slide_content (powerpoint.rs:307-313). -/
def ppTextEvent (st : PPState) (t : String) : PPState :=
  if st.in_table_cell then { st with cell_text := st.cell_text ++ t }
  else if st.in_text then
    { st with current_run := { st.current_run with
        text := st.current_run.text ++ t } }
  else st

/-- Event::End arm of extract_slide_content (powerpoint.rs:315-382). -/
def ppEndTag (st : PPState) (tag : String) : PPState :=
  if (tag = "sp" ∨ tag = "pic") ∧ st.in_table = false then
    let st2 :=
      if st.in_shape ∧ st.paragraphs ≠ [] then
        { st with
          shapes := st.shapes ++
            [{ paragraphs := st.paragraphs,
               is_title := st.shape_type = "title" ∨ st.shape_type = "ctrTitle",
               is_subtitle := st.shape_type = "subTitle",
               has_bullets := st.has_bullets }],
          paragraphs := [] }
      else st
    { st2 with in_shape := false }
  else if tag = "txBody" then { st with in_text_body := false }
  else if tag = "p" ∧ st.in_text_body ∧ st.in_table_cell = false then
    let st2 :=
      if st.in_paragraph ∧ st.current_paragraph.runs ≠ [] then
        { st with paragraphs := st.paragraphs ++ [st.current_paragraph],
                  current_paragraph := ⟨[]⟩ }
      else st
    { st2 with in_paragraph := false }
  else if tag = "pPr" then { st with in_ppr := false }
  else if tag = "r" ∧ st.in_table_cell = false then
    let st2 :=
      if st.in_run ∧ st.current_run.text ≠ "" then
        { st with
          current_paragraph := ⟨st.current_paragraph.runs ++ [st.current_run]⟩,
          current_run := ⟨"", false, false⟩ }
      else st
    { st2 with in_run := false, in_rpr := false }
  else if tag = "rPr" then { st with in_rpr := false }
  else if tag = "t" then { st with in_text := false }
  else if tag = "tc" then
    { st with table_row := st.table_row ++ [rustTrim st.cell_text],
              cell_text := "", in_table_cell := false }
  else if tag = "tr" then
    { st with table_rows := st.table_rows ++ [st.table_row],
              table_row := [], in_table_row := false }
  else if tag = "tbl" then
    { st with
      tables :=
        if st.table_rows ≠ [] then st.tables ++ [st.table_rows] else st.tables,
      table_rows := [], in_table := false }
  else st

/-- One step of the presentation builder. -/
def ppStep (st : PPState) : XmlEvent → PPState
  | XmlEvent.start name attrs => ppStartTag st (local_name name) attrs
  | XmlEvent.selfClose name attrs => ppEmptyTag st (local_name name) attrs
  | XmlEvent.text t => ppTextEvent st t
  | XmlEvent.close name => ppEndTag st (local_name name)
  | XmlEvent.err _ => st

/-- Driver loop of extract_slide_content (powerpoint.rs:213-393). -/
def runPPEvents : PPState → List XmlEvent → Except String SlideContent
  | st, [] => Except.ok ⟨st.shapes, st.tables⟩
  | _, XmlEvent.err m :: _ =>
      Except.error ("Failed to parse slide XML: " ++ m)
  | st, e :: rest => runPPEvents (ppStep st e) rest

/-- Embedding of extract_slide_content (powerpoint.rs:183). -/
def extract_slide_content (events : List XmlEvent) : Except String SlideContent :=
  runPPEvents initPPState events

/-! ## Presentation Markdown assembly (PowerPointConverter::convert,
powerpoint.rs:16-131) -/

/-- Whether the first shape of the slide is flagged as a title
(powerpoint.rs:52-53); an empty shape list gives false. -/
def firstIsTitle (content : SlideContent) : Bool :=
  match content.shapes with
  | [] => false
  | first :: _ => first.is_title

/-- Joined paragraph text of the first shape (powerpoint.rs:54). -/
def slideTitleText (content : SlideContent) : String :=
  match content.shapes with
  | [] => ""
  | first :: _ => join_paragraphs_inline first.paragraphs

/-- Heading written for one slide (powerpoint.rs:50-63): the first shape's
text when that shape is title-flagged, otherwise the synthesized Slide N
heading from the slide's 1-based position. -/
def slideHeading (idx : Nat) (content : SlideContent) : String :=
  if firstIsTitle content then "# " ++ slideTitleText content ++ "\n\n"
  else "# Slide " ++ toString (idx + 1) ++ "\n\n"

/-- Content shapes of a slide (powerpoint.rs:65-69): shapes after the
consumed title, keeping only those with a nonempty paragraph list. -/
def contentShapes (content : SlideContent) : List SlideShape :=
  (content.shapes.drop (if firstIsTitle content then 1 else 0)).filter
    (fun s => !s.paragraphs.isEmpty)

/-- The placeholder written for a slide with nothing to show
(powerpoint.rs:71-73). -/
def emptySlideMarker (content : SlideContent) : String :=
  if (contentShapes content).isEmpty && content.tables.isEmpty
      && !firstIsTitle content
  then "*Empty slide*\n" else ""

/-- Rendering of one body paragraph inside a content shape
(powerpoint.rs:83-95). -/
def renderBodyParagraph (bullets : Bool) (para : PPParagraph) : String :=
  let text := rustTrim (render_paragraph para)
  if text = "" then ""
  else if bullets then "- " ++ text ++ "\n"
  else text ++ "\n\n"

/-- Rendering of one content shape (powerpoint.rs:75-101): a subtitle
becomes a level-2 heading, otherwise each paragraph becomes a bullet or a
standalone paragraph, with a closing blank line after a bullet run. -/
def renderContentShape (shape : SlideShape) : String :=
  if shape.is_subtitle then
    let text := join_paragraphs_inline shape.paragraphs
    if text = "" then "" else "## " ++ text ++ "\n\n"
  else
    String.join (shape.paragraphs.map (renderBodyParagraph shape.has_bullets)) ++
      (if shape.has_bullets then "\n" else "")

/-- Tables written after the shapes (powerpoint.rs:104-107). -/
def slideTables (content : SlideContent) : String :=
  String.join (content.tables.map (fun t => write_table t ++ "\n"))

/-- Markdown written for one slide by the convert loop, excluding the
separator and the speaker notes (powerpoint.rs:50-107). -/
def convertSlide (idx : Nat) (content : SlideContent) : String :=
  slideHeading idx content ++ emptySlideMarker content ++
    String.join ((contentShapes content).map renderContentShape) ++
    slideTables content

/-! ## Speaker notes (powerpoint.rs:109-127) -/

/-- Trimmed rendering of every paragraph of every shape of the notes part,
in order (powerpoint.rs:114-119). -/
def trimmedNoteLines (shapes : List SlideShape) : List String :=
  ((shapes.flatMap (fun s => s.paragraphs)).map
    (fun p => rustTrim (render_paragraph p)))

/-- The filter of powerpoint.rs:120: keep lines that are nonempty and not
made of ASCII digits only. -/
def keepNoteLine (s : String) : Bool :=
  (!(s == "")) && (!(s.toList.all Char.isDigit))

/-- Note lines surviving the filter. -/
def notesLines (shapes : List SlideShape) : List String :=
  (trimmedNoteLines shapes).filter keepNoteLine

/-- Vec::join with a newline separator (powerpoint.rs:122). -/
def joinNewline : List String → String
  | [] => ""
  | [s] => s
  | s :: rest => s ++ "\n" ++ joinNewline rest

/-- The joined notes text (powerpoint.rs:114-122). -/
def notes_text (shapes : List SlideShape) : String :=
  joinNewline (notesLines shapes)

/-- The notes block appended to a slide (powerpoint.rs:123-126): nothing
when the joined text is empty. -/
def notesOutput (shapes : List SlideShape) : String :=
  if notes_text shapes = "" then ""
  else "> **Notes**: " ++ notes_text shapes ++ "\n\n"

/-- The per-slide notes sub-step (powerpoint.rs:110-127): a failed read of
the notes part is swallowed and yields no notes, but a failure of
extract_slide_content on the notes XML is propagated by the question-mark
operator at powerpoint.rs:113. -/
def slideNotesStep (readResult : Except String (List XmlEvent)) :
    Except String String :=
  match readResult with
  | Except.error _ => Except.ok ""
  | Except.ok events =>
    match extract_slide_content events with
    | Except.error e => Except.error e
    | Except.ok content => Except.ok (notesOutput content.shapes)

/-! ## Slide part ordering (powerpoint.rs:33-38) -/

/-- Model of Rust str::trim_start_matches on character lists: strip the
pattern from the front as many times as it occurs; the fuel argument is the
list length, enough for every strip of a nonempty pattern. -/
def trimStartList (pat : List Char) : Nat → List Char → List Char
  | 0, cs => cs
  | fuel + 1, cs =>
    if pat ≠ [] ∧ pat.isPrefixOf cs then
      trimStartList pat fuel (cs.drop pat.length)
    else cs

/-- Model of Rust str::trim_end_matches via the reversed list. -/
def trimEndList (pat : List Char) (cs : List Char) : List Char :=
  (trimStartList pat.reverse cs.reverse.length cs.reverse).reverse

/-- The suffix characters of a slide part name after stripping the fixed
path prefix and the .xml extension (powerpoint.rs:34-35). -/
def slideSuffix (name : String) : List Char :=
  trimEndList (".xml".toList)
    (trimStartList ("ppt/slides/slide".toList) name.toList.length name.toList)

/-- Sort key of a slide part name (powerpoint.rs:33-38): the suffix parsed
as u32, or 0 when parsing fails. -/
def suffixKey (name : String) : Nat :=
  (parseRustNat 4294967295 (slideSuffix name)).getD 0

/-- Comparison used by the sort: ascending suffix key. -/
def slideKeyLe (a b : String) : Prop := suffixKey a ≤ suffixKey b

instance : DecidableRel slideKeyLe := fun a b => Nat.decLe (suffixKey a) (suffixKey b)

instance : IsTotal String slideKeyLe := ⟨fun a b => Nat.le_total (suffixKey a) (suffixKey b)⟩

instance : IsTrans String slideKeyLe := ⟨fun _ _ _ => Nat.le_trans⟩

/-- Embedding of slide_names.sort_by_key (powerpoint.rs:33-38): a stable
sort by the numeric suffix key, modelled by insertion sort, which is
stable like Rust's sort_by_key. -/
def sortSlideNames (names : List String) : List String :=
  List.insertionSort slideKeyLe names

/-! ## Lemmas about the table writer -/

theorem le_foldl_max_self (l : List Nat) (init : Nat) :
    init ≤ l.foldl max init := by
  induction l generalizing init with
  | nil => exact Nat.le_refl init
  | cons b t ih =>
    exact Nat.le_trans (Nat.le_max_left init b) (ih (max init b))

theorem mem_le_foldl_max (l : List Nat) (a init : Nat) (h : a ∈ l) :
    a ≤ l.foldl max init := by
  induction l generalizing init with
  | nil => cases h
  | cons b t ih =>
    rcases List.mem_cons.mp h with hb | ht
    · subst hb
      exact Nat.le_trans (Nat.le_max_right init a) (le_foldl_max_self t (max init a))
    · exact ih (max init b) ht

theorem len_le_maxRowLen (rows : List (List String)) (r : List String)
    (h : r ∈ rows) : r.length ≤ maxRowLen rows :=
  mem_le_foldl_max (rows.map List.length) r.length 0
    (List.mem_map_of_mem List.length h)

theorem range_map_cellAt (row : List String) :
    (List.range row.length).map (cellAt row) = row := by
  induction row with
  | nil => rfl
  | cons a l ih =>
    show (List.range (l.length + 1)).map (cellAt (a :: l)) = a :: l
    rw [List.range_succ_eq_map, List.map_cons, List.map_map]
    have hc : cellAt (a :: l) ∘ Nat.succ = cellAt l := by
      funext i; rfl
    rw [hc, ih]
    rfl

theorem cellAt_of_le (row : List String) (n : Nat) (h : row.length ≤ n) :
    cellAt row n = "" := by
  unfold cellAt
  rw [List.get?_eq_none.mpr h]
  rfl

theorem range_map_cellAt_pad (row : List String) (w : Nat)
    (h : row.length ≤ w) :
    (List.range w).map (cellAt row) = padRow w row := by
  induction w, h using Nat.le_induction with
  | base =>
    rw [range_map_cellAt]
    unfold padRow
    rw [Nat.sub_self, List.replicate_zero, List.append_nil]
  | succ n hn ih =>
    rw [List.range_succ, List.map_append, ih, List.map_singleton,
      cellAt_of_le row n hn]
    unfold padRow
    rw [Nat.succ_sub hn, List.replicate_succ', ← List.append_assoc]

theorem tableRowLine_eq_spec (w : Nat) (row : List String)
    (h : row.length ≤ w) :
    tableRowLine w row = specTableLine (padRow w row) := by
  unfold tableRowLine specTableLine
  rw [← range_map_cellAt_pad row w h, List.map_map]
  rfl

/-- C1: for every table rendered to Markdown (both office converters use the
same write_table), the output agrees with the spec-side renderer: column
count is the maximum row length (every row is no longer than it), the
header row is rows[0], the dash separator immediately follows the header,
every row is padded with empty cells up to the column count, and every cell
has its pipe characters escaped before emission. -/
theorem table_render_matches_spec (rows : List (List String)) :
    write_table rows = spec_table rows ∧
    (∀ r ∈ rows, r.length ≤ maxRowLen rows) := by
  constructor
  · match rows with
    | [] => rfl
    | header :: rest =>
      simp only [write_table, spec_table]
      by_cases h0 : maxRowLen (header :: rest) = 0
      · rw [if_pos h0, if_pos h0]
      · rw [if_neg h0, if_neg h0,
          tableRowLine_eq_spec _ header
            (len_le_maxRowLen _ header (List.mem_cons_self header rest))]
        have hrest : rest.map (tableRowLine (maxRowLen (header :: rest))) =
            rest.map (fun r => specTableLine (padRow (maxRowLen (header :: rest)) r)) :=
          List.map_congr_left (fun r hr =>
            tableRowLine_eq_spec _ r
              (len_le_maxRowLen _ r (List.mem_cons_of_mem header hr)))
        rw [hrest]
  · exact fun r hr => len_le_maxRowLen rows r hr

/-- Witness for C1 at a concrete jagged table: the code renderer and the
spec renderer agree, the short second row is within the column count, and
the rendered text shows padding, the separator placement and pipe
escaping. -/
theorem table_render_matches_spec_witness :
    write_table [["Name", "A|ge"], ["Alice"]] = spec_table [["Name", "A|ge"], ["Alice"]] ∧
    ("Alice" :: []).length ≤ maxRowLen [["Name", "A|ge"], ["Alice"]] ∧
    write_table [["Name", "A|ge"], ["Alice"]] =
      "| Name | A\\|ge |\n|---|---|\n| Alice |  |\n" :=
  ⟨(table_render_matches_spec [["Name", "A|ge"], ["Alice"]]).1,
   (table_render_matches_spec [["Name", "A|ge"], ["Alice"]]).2 ["Alice"]
     (List.mem_cons_of_mem _ (List.mem_cons_self _ _)),
   by decide⟩

/-! ## Title promotion -/

/-- C2: the slide output always begins with the promoted title of the first
shape when and only when that first shape is flagged is_title, and with the
synthesized Slide N heading otherwise; rendering of the remaining content
shapes ignores the is_title flag entirely, so a title-flagged shape at a
later position is never promoted. -/
theorem slide_title_promotion_first_shape (idx : Nat) (content : SlideContent) :
    (∃ rest, convertSlide idx content =
      (if firstIsTitle content then "# " ++ slideTitleText content
       else "# Slide " ++ toString (idx + 1)) ++ "\n\n" ++ rest) ∧
    (∀ (shape : SlideShape) (b : Bool),
      renderContentShape { shape with is_title := b } = renderContentShape shape) := by
  constructor
  · refine ⟨emptySlideMarker content ++
      String.join ((contentShapes content).map renderContentShape) ++
      slideTables content, ?_⟩
    by_cases h : firstIsTitle content <;>
      simp [convertSlide, slideHeading, h, String.append_assoc]
  · intro shape b
    cases shape
    rfl

/-! ## Heading level range -/

theorem heading_level_mem_range (s : String) (n : Nat)
    (h : heading_level s = some n) : 1 ≤ n ∧ n ≤ 6 := by
  simp only [heading_level] at h
  by_cases h1 : (("heading".toList).isPrefixOf (lowerAscii s).toList : Bool)
  · rw [if_pos h1] at h
    exact of_decide_eq_true (Option.filter_eq_some.mp h).2
  · rw [if_neg h1] at h
    by_cases h2 : (("titre".toList).isPrefixOf (lowerAscii s).toList : Bool)
    · rw [if_pos h2] at h
      exact of_decide_eq_true (Option.filter_eq_some.mp h).2
    · rw [if_neg h2] at h
      cases h

theorem classify_heading_range (style : Option String) (isList : Bool)
    (text : String) (level : Nat) (t : String)
    (h : classifyParagraph style isList text = WPara.Heading level t) :
    1 ≤ level ∧ level ≤ 6 := by
  match style with
  | none =>
    by_cases hl : isList <;> simp [classifyParagraph, hl] at h
  | some s =>
    simp only [classifyParagraph] at h
    cases hh : heading_level s with
    | some l =>
      rw [hh] at h
      simp only at h
      injection h with hlev htext
      exact hlev ▸ heading_level_mem_range s l hh
    | none =>
      rw [hh] at h
      by_cases hb : is_blockquote s <;> by_cases hil : isList <;>
        simp [hb, hil] at h

/-- C3 counterexample: the style heading7 is not clamped to a level-6
heading; heading_level rejects it outright, so the paragraph is parsed and
rendered as plain text, with no hash characters at all. -/
theorem heading_not_clamped_counterexample :
    heading_level "heading7" = none ∧
    parse_document [XmlEvent.start "w:p" [],
      XmlEvent.selfClose "w:pStyle" [("w:val", "heading7")],
      XmlEvent.start "w:r" [], XmlEvent.text "Title", XmlEvent.close "w:r",
      XmlEvent.close "w:p"] = Except.ok [WPara.Text "Title"] ∧
    wordConvertBody [WPara.Text "Title"] = "Title\n" ∧
    wordConvertBody [WPara.Text "Title"] ≠ "###### Title\n" :=
  ⟨by decide, rfl, by decide, by decide⟩

/-- C3 amended: heading levels are produced only inside the closed range
1..6 - a style requesting a depth of 7 or more (heading7, heading9, ...) is
not treated as a heading at all rather than clamped to 6 - so no rendered
heading ever carries more than six hash characters. -/
theorem heading_level_range_amended :
    (∀ s n, heading_level s = some n → 1 ≤ n ∧ n ≤ 6) ∧
    (∀ style isList text level t,
      classifyParagraph style isList text = WPara.Heading level t →
      1 ≤ level ∧ level ≤ 6) ∧
    heading_level "heading7" = none ∧ heading_level "heading9" = none :=
  ⟨heading_level_mem_range, classify_heading_range, by decide, by decide⟩

/-- Witness for C3 at a concrete accepted style name. -/
theorem heading_level_range_amended_witness :
    (1 ≤ 3 ∧ 3 ≤ 6) ∧ heading_level "TITRE2" = some 2 :=
  ⟨heading_level_range_amended.1 "heading3" 3 (by decide), by decide⟩

/-! ## Slide ordering -/

/-- C4: slide part names are rendered in ascending order of the integer
suffix key (the sorted list is a permutation of the input, pairwise ordered
by the parsed numeric suffix), and a name whose suffix fails to parse as an
integer gets key 0. -/
theorem slide_order_numeric (names : List String) :
    List.Sorted slideKeyLe (sortSlideNames names) ∧
    (sortSlideNames names).Perm names ∧
    (∀ name, parseRustNat 4294967295 (slideSuffix name) = none →
      suffixKey name = 0) := by
  refine ⟨List.sorted_insertionSort slideKeyLe names,
    List.perm_insertionSort slideKeyLe names, ?_⟩
  intro name h
  unfold suffixKey
  rw [h]
  rfl

/-- Witness for C4: suffixes 10, 2, 1 sort numerically as 1, 2, 10, and a
non-numeric suffix sorts as key 0. -/
theorem slide_order_numeric_witness :
    List.Sorted slideKeyLe (sortSlideNames
      ["ppt/slides/slide10.xml", "ppt/slides/slide2.xml", "ppt/slides/slide1.xml"]) ∧
    sortSlideNames
      ["ppt/slides/slide10.xml", "ppt/slides/slide2.xml", "ppt/slides/slide1.xml"] =
      ["ppt/slides/slide1.xml", "ppt/slides/slide2.xml", "ppt/slides/slide10.xml"] ∧
    suffixKey "ppt/slides/slideabc.xml" = 0 :=
  ⟨(slide_order_numeric _).1, by decide,
   (slide_order_numeric []).2.2 "ppt/slides/slideabc.xml" (by decide)⟩

/-! ## Speaker notes lemmas -/

theorem string_append_ne_empty (s t : String) (h : s ≠ "") : s ++ t ≠ "" := by
  intro he
  apply h
  rw [String.ext_iff] at he ⊢
  rw [String.data_append] at he
  exact (List.append_eq_nil.mp he).1

theorem joinNewline_eq_empty (l : List String) (h : ∀ s ∈ l, s ≠ "") :
    joinNewline l = "" ↔ l = [] := by
  match l with
  | [] => simp [joinNewline]
  | [s] =>
    have hs := h s (List.mem_cons_self s [])
    simp [joinNewline, hs]
  | s :: s2 :: rest =>
    have hs := h s (List.mem_cons_self s (s2 :: rest))
    have hne : s ++ "\n" ++ joinNewline (s2 :: rest) ≠ "" :=
      string_append_ne_empty _ _ (string_append_ne_empty s "\n" hs)
    simp [joinNewline, hne]

theorem notesLines_mem_ne_empty (shapes : List SlideShape) (x : String)
    (h : x ∈ notesLines shapes) : x ≠ "" := by
  have hk : keepNoteLine x = true := List.of_mem_filter h
  intro hx
  rw [hx] at hk
  exact absurd hk (by decide)

theorem notesOutput_empty_iff (shapes : List SlideShape) :
    notesOutput shapes = "" ↔ notesLines shapes = [] := by
  unfold notesOutput
  by_cases hc : notes_text shapes = ""
  · rw [if_pos hc]
    unfold notes_text at hc
    simp only [eq_self_iff_true, true_iff]
    exact (joinNewline_eq_empty (notesLines shapes)
      (notesLines_mem_ne_empty shapes)).mp hc
  · rw [if_neg hc]
    have hne : "> **Notes**: " ++ notes_text shapes ++ "\n\n" ≠ "" :=
      string_append_ne_empty _ _
        (string_append_ne_empty "> **Notes**: " _ (by decide))
    simp only [hne, false_iff]
    intro hl
    apply hc
    unfold notes_text
    rw [hl]
    rfl

theorem keepNoteLine_false_iff (s : String) :
    (¬ keepNoteLine s = true) ↔
      ((s == "") || s.toList.all Char.isDigit) = true := by
  unfold keepNoteLine
  cases h1 : (s == "") <;> cases h2 : s.toList.all Char.isDigit <;>
    simp [h1, h2]

/-- C5: the Notes block is empty exactly when every trimmed paragraph line
of the notes part is empty or consists solely of ASCII digits; when it is
nonempty, it is the Notes prefix followed by the surviving (nonempty,
non-numeric) lines joined with newlines. -/
theorem pp_notes_rule (shapes : List SlideShape) :
    (notesOutput shapes = "" ↔
      (trimmedNoteLines shapes).all
        (fun line => (line == "") || line.toList.all Char.isDigit) = true) ∧
    (notesOutput shapes ≠ "" →
      notesOutput shapes =
        "> **Notes**: " ++ joinNewline (notesLines shapes) ++ "\n\n") := by
  constructor
  · rw [notesOutput_empty_iff]
    unfold notesLines
    rw [List.filter_eq_nil_iff, List.all_eq_true]
    exact forall_congr' fun a => imp_congr_right fun _ => keepNoteLine_false_iff a
  · intro h
    unfold notesOutput at h ⊢
    by_cases hc : notes_text shapes = ""
    · rw [if_pos hc] at h
      cases h rfl
    · rw [if_neg hc]
      rfl

/-- Witness for C5: a notes part whose only line is the digit string 3
produces no Notes block, while a textual line produces the joined block. -/
theorem pp_notes_rule_witness :
    notesOutput [⟨[⟨[⟨"3", false, false⟩]⟩], false, false, false⟩] = "" ∧
    notesOutput [⟨[⟨[⟨"hi", false, false⟩]⟩], false, false, false⟩] =
      "> **Notes**: hi\n\n" := by
  constructor
  · exact (pp_notes_rule _).1.mpr (by decide)
  · have h := (pp_notes_rule
      [⟨[⟨[⟨"hi", false, false⟩]⟩], false, false, false⟩]).2 (by decide)
    rw [h]
    decide

/-! ## Notes failure handling -/

/-- C6 counterexample: a notes part that exists but fails XML parsing is
not swallowed - the error is surfaced by the notes sub-step, contradicting
the claim that any failure of the best-effort notes sub-step is treated as
no notes. -/
theorem notes_parse_error_surfaces_counterexample :
    slideNotesStep (Except.ok [XmlEvent.err "bad"]) =
      Except.error "Failed to parse slide XML: bad" ∧
    (Except.error "Failed to parse slide XML: bad" : Except String String) ≠
      Except.ok "" :=
  ⟨rfl, fun h => Except.noConfusion h⟩

/-- C6 amended: only failure to read the notes part is swallowed as "no
notes for this slide"; a failure while processing the notes content
(extract_slide_content on the notes XML) is propagated to the caller as an
error. -/
theorem notes_read_failure_swallowed_amended :
    (∀ msg, slideNotesStep (Except.error msg) = Except.ok "") ∧
    (∀ events m, extract_slide_content events = Except.error m →
      slideNotesStep (Except.ok events) = Except.error m) := by
  constructor
  · intro msg
    rfl
  · intro events m h
    show (match extract_slide_content events with
      | Except.error e => Except.error e
      | Except.ok content => Except.ok (notesOutput content.shapes)) =
      Except.error m
    rw [h]

/-- Witness for C6 at a concrete failed-parse notes part. -/
theorem notes_read_failure_swallowed_amended_witness :
    slideNotesStep (Except.ok [XmlEvent.err "x"]) =
      Except.error "Failed to parse slide XML: x" :=
  notes_read_failure_swallowed_amended.2 [XmlEvent.err "x"]
    "Failed to parse slide XML: x" rfl

/-! ## Paragraph classification precedence -/

/-- C7: at paragraph-close outside a table cell, the word builder attaches
exactly one paragraph classified from the accumulated style name, list
marker and text, with the precedence heading, then blockquote, then list
item, then plain text; the heading and titre matchers accept levels 1..6
case-insensitively. -/
theorem paragraph_kind_precedence :
    (∀ st : WordState, st.in_table_cell = false → st.in_paragraph = true →
      wordStep st (XmlEvent.close "w:p") =
        { st with
          paragraphs := st.paragraphs ++
            [classifyParagraph st.current_style st.is_list_item st.current_text],
          in_paragraph := false }) ∧
    (∀ s n isList text, heading_level s = some n →
      classifyParagraph (some s) isList text = WPara.Heading n text) ∧
    (∀ s isList text, heading_level s = none → is_blockquote s = true →
      classifyParagraph (some s) isList text = WPara.BlockQuote text) ∧
    (∀ s text, heading_level s = none → is_blockquote s = false →
      classifyParagraph (some s) true text = WPara.ListItem text ∧
      classifyParagraph (some s) false text = WPara.Text text) ∧
    (∀ text, classifyParagraph none true text = WPara.ListItem text ∧
      classifyParagraph none false text = WPara.Text text) ∧
    ((List.range 6).all (fun k =>
      (heading_level ("Heading" ++ toString (k + 1)) == some (k + 1)) &&
      (heading_level ("TITRE" ++ toString (k + 1)) == some (k + 1))) = true) := by
  refine ⟨?_, ?_, ?_, ?_, ?_, by decide⟩
  · intro st h1 h2
    show wordEndTag st "p" =
      { st with
        paragraphs := st.paragraphs ++
          [classifyParagraph st.current_style st.is_list_item st.current_text],
        in_paragraph := false }
    simp [wordEndTag, h1, h2]
  · intro s n isList text h
    simp [classifyParagraph, h]
  · intro s isList text h hb
    simp [classifyParagraph, h, hb]
  · intro s text h hb
    constructor <;> simp [classifyParagraph, h, hb]
  · intro text
    constructor <;> simp [classifyParagraph]

/-- Witness for C7: a heading style wins over a raised list marker, and a
quote style wins over a raised list marker. -/
theorem paragraph_kind_precedence_witness :
    classifyParagraph (some "heading2") true "T" = WPara.Heading 2 "T" ∧
    classifyParagraph (some "Quote") true "T" = WPara.BlockQuote "T" :=
  ⟨paragraph_kind_precedence.2.1 "heading2" 2 true "T" (by decide),
   paragraph_kind_precedence.2.2.1 "Quote" true "T" (by decide) (by decide)⟩

/-! ## Run formatting flags -/

/-- C8 counterexample: a self-closing bold element raised between runs -
outside any run - is still in force when the next run opens, because the
flags are reset at run-close, not run-open; the later run's text is
rendered bold, contradicting the claim that a flag raised outside a run
never affects a later run. -/
theorem bold_outside_run_leaks_counterexample :
    parse_document [XmlEvent.start "w:p" [], XmlEvent.selfClose "w:b" [],
      XmlEvent.start "w:r" [], XmlEvent.text "x", XmlEvent.close "w:r",
      XmlEvent.close "w:p"] = Except.ok [WPara.Text "**x**"] ∧
    WPara.Text "**x**" ≠ WPara.Text "x" :=
  ⟨rfl, by decide⟩

/-- C8 amended: the bold and italic flags are reset at run-close and at
paragraph-open (not at run-open), and are set by any self-closing bold or
italic element, whether or not a run is open; text captured in a run is
formatted with the flags current at capture time, so a flag raised in an
earlier run never leaks into a later one, but a flag raised between runs of
the same paragraph does affect the following run. -/
theorem run_formatting_flags_amended :
    (∀ st : WordState, (wordStep st (XmlEvent.close "r")).is_bold = false ∧
      (wordStep st (XmlEvent.close "r")).is_italic = false) ∧
    (∀ (st : WordState) attrs,
      (wordStep st (XmlEvent.start "p" attrs)).is_bold = false ∧
      (wordStep st (XmlEvent.start "p" attrs)).is_italic = false) ∧
    (∀ (st : WordState) attrs,
      (wordStep st (XmlEvent.selfClose "b" attrs)).is_bold = true ∧
      (wordStep st (XmlEvent.selfClose "i" attrs)).is_italic = true) ∧
    (∀ (st : WordState) t, st.in_run = true → st.in_table_cell = false →
      st.in_paragraph = true →
      (wordStep st (XmlEvent.text t)).current_text =
        st.current_text ++ format_run_text t st.is_bold st.is_italic) ∧
    (∀ (st : WordState) t, st.in_run = false → st.in_table_cell = false →
      wordStep st (XmlEvent.text t) = st) := by
  refine ⟨?_, ?_, ?_, ?_, ?_⟩
  · intro st
    exact ⟨rfl, rfl⟩
  · intro st attrs
    exact ⟨rfl, rfl⟩
  · intro st attrs
    exact ⟨rfl, rfl⟩
  · intro st t h1 h2 h3
    simp [wordStep, wordTextEvent, h1, h2, h3]
  · intro st t h1 h2
    simp [wordStep, wordTextEvent, h1, h2]

/-- Witness for C8 at a concrete open-run state with the bold flag raised. -/
theorem run_formatting_flags_amended_witness :
    (wordStep
        { initWordState with
          in_paragraph := true, in_run := true, is_bold := true }
        (XmlEvent.text "x")).current_text =
      "" ++ format_run_text "x" true false :=
  run_formatting_flags_amended.2.2.2.1
    { initWordState with in_paragraph := true, in_run := true, is_bold := true }
    "x" rfl rfl rfl

/-! ## Empty paragraph handling -/

/-- C9 counterexample: in the word builder a paragraph with no runs is
still attached to the model (the claim fails); with a numbering marker and
no text it becomes an empty list item, which renders the output line made
of a dash and a space. -/
theorem empty_list_item_line_counterexample :
    parse_document [XmlEvent.start "w:p" [], XmlEvent.selfClose "w:numPr" [],
      XmlEvent.close "w:p"] = Except.ok [WPara.ListItem ""] ∧
    wordConvertBody [WPara.ListItem ""] = "- \n" ∧
    ("- \n" : String) ≠ "" :=
  ⟨rfl, by decide, by decide⟩

/-- C9 amended: in presentation parts a paragraph with no runs is dropped
at paragraph-close and never attached to its shape, and an empty run is
likewise never attached to its paragraph; in word parts the empty paragraph
is attached anyway - a plain empty paragraph still yields no output line,
but an empty list-item paragraph yields the dash-space line. -/
theorem empty_paragraph_handling_amended :
    (∀ st : PPState, st.current_paragraph.runs = [] →
      (ppStep st (XmlEvent.close "p")).paragraphs = st.paragraphs) ∧
    (∀ st : PPState, st.current_run.text = "" →
      (ppStep st (XmlEvent.close "r")).current_paragraph =
        st.current_paragraph) ∧
    (∀ first, renderWordPara first (WPara.Text "") = "") := by
  refine ⟨?_, ?_, ?_⟩
  · intro st h
    show (ppEndTag st "p").paragraphs = st.paragraphs
    by_cases h1 : st.in_text_body = true <;>
      by_cases h2 : st.in_table_cell = false <;>
      simp [ppEndTag, h, h1, h2]
  · intro st h
    show (ppEndTag st "r").current_paragraph = st.current_paragraph
    by_cases h2 : st.in_table_cell = false <;>
      simp [ppEndTag, h, h2]
  · intro first
    simp [renderWordPara]

/-- Witness for C9 with the initial presentation state, whose pending
paragraph has no runs. -/
theorem empty_paragraph_handling_amended_witness :
    (ppStep initPPState (XmlEvent.close "p")).paragraphs =
      initPPState.paragraphs ∧
    (ppStep initPPState (XmlEvent.close "r")).current_paragraph =
      initPPState.current_paragraph :=
  ⟨empty_paragraph_handling_amended.1 initPPState rfl,
   empty_paragraph_handling_amended.2.1 initPPState rfl⟩

/-! ## Empty slide placeholder -/

/-- C10: the Empty slide placeholder is emitted exactly when the slide has
no promoted first-shape title, no remaining shape with a nonempty paragraph
list, and no table; in that case the whole slide output is the synthesized
heading followed by the placeholder line, and in every other case the
placeholder component is absent. -/
theorem pp_empty_slide_rule (idx : Nat) (content : SlideContent) :
    (emptySlideMarker content = "*Empty slide*\n" ↔
      (contentShapes content = [] ∧ content.tables = [] ∧
        firstIsTitle content = false)) ∧
    (contentShapes content = [] ↔
      ∀ s ∈ content.shapes.drop (if firstIsTitle content then 1 else 0),
        s.paragraphs = []) ∧
    (firstIsTitle content = false → contentShapes content = [] →
      content.tables = [] →
      convertSlide idx content =
        "# Slide " ++ toString (idx + 1) ++ "\n\n" ++ "*Empty slide*\n") := by
  refine ⟨?_, ?_, ?_⟩
  · have hne : ("" : String) ≠ "*Empty slide*\n" := by decide
    unfold emptySlideMarker
    by_cases hb : ((contentShapes content).isEmpty && content.tables.isEmpty
        && !firstIsTitle content) = true
    · rw [if_pos hb]
      rcases Bool.and_eq_true_iff.mp hb with ⟨hb1, hb3⟩
      rcases Bool.and_eq_true_iff.mp hb1 with ⟨hcs, htb⟩
      have hft : firstIsTitle content = false := by simpa using hb3
      simp [List.isEmpty_iff.mp hcs, List.isEmpty_iff.mp htb, hft]
    · rw [if_neg hb]
      simp only [hne, false_iff]
      intro hc
      apply hb
      rw [hc.1, hc.2.1, hc.2.2]
      rfl
  · unfold contentShapes
    rw [List.filter_eq_nil_iff]
    refine forall_congr' fun s => imp_congr_right fun _ => ?_
    simp [List.isEmpty_iff]
  · intro h1 h2 h3
    unfold convertSlide slideHeading emptySlideMarker slideTables
    rw [h1, h2, h3]
    have hj : String.join ([] : List String) = "" := rfl
    simp only [List.map_nil, hj, String.append_empty, List.isEmpty_nil,
      Bool.not_false, Bool.and_true, Bool.and_self, if_pos]
    rfl

/-- Witness for C10: a slide with no shapes and no tables renders the
synthesized heading and the placeholder, and nothing else. -/
theorem pp_empty_slide_rule_witness :
    convertSlide 0 ⟨[], []⟩ = "# Slide 1\n\n" ++ "*Empty slide*\n" :=
  (pp_empty_slide_rule 0 ⟨[], []⟩).2.2 rfl rfl rfl

end MqConv
